import Mathlib

/-!
Verification of the arroyo console's connection-schema configuration model
and service contract registry, shallowly embedded from
`src/arroyo-console/src/gen/api_connectweb.ts`.

The embedding covers:
* the `ApiGrpc` service contract registry (operation names, request and
  response type names, invocation kind);
* the schema draft data model built by the wizard (`CreateConnectionState`
  and its `schema` object);
* the draft transitions: `JsonEditor.onChange`, `RawStringEditor.submit`,
  `DefineSchema.onFormatChange`, `DefineSchema.onFramingChange`;
* the offered option sets: `JsonEditor.schemaTypeOptions`,
  `DefineSchema.formats` (gated on the profile-loading state) and
  `DefineSchema.framingMethods`.
-/

/-! ## Service contract registry -/

/-- Invocation kind of a remote operation, from `MethodKind` of
`@bufbuild/protobuf`: a single request and response, or a server stream of
responses. -/
inductive MethodKind where
  | Unary
  | ServerStreaming
  deriving DecidableEq, Repr

/-- One entry of the `ApiGrpc.methods` catalog: the operation name, the
request type name `I`, the response type name `O`, and the invocation kind. -/
structure MethodDef where
  name : String
  I : String
  O : String
  kind : MethodKind
  deriving DecidableEq, Repr

/-- The `ApiGrpc.methods` catalog, entry for entry in source order, with the
request and response message types recorded by name. -/
def ApiGrpcMethods : List MethodDef :=
  [⟨"CreateConnection", "CreateConnectionReq", "CreateConnectionResp", .Unary⟩,
   ⟨"TestConnection", "CreateConnectionReq", "TestSourceMessage", .Unary⟩,
   ⟨"GetConnections", "GetConnectionsReq", "GetConnectionsResp", .Unary⟩,
   ⟨"DeleteConnection", "DeleteConnectionReq", "DeleteConnectionResp", .Unary⟩,
   ⟨"CreateSource", "CreateSourceReq", "CreateSourceResp", .Unary⟩,
   ⟨"GetSources", "GetSourcesReq", "GetSourcesResp", .Unary⟩,
   ⟨"DeleteSource", "DeleteSourceReq", "DeleteSourceResp", .Unary⟩,
   ⟨"CreateSink", "CreateSinkReq", "CreateSinkResp", .Unary⟩,
   ⟨"GetSinks", "GetSinksReq", "GetSinksResp", .Unary⟩,
   ⟨"DeleteSink", "DeleteSinkReq", "DeleteSinkResp", .Unary⟩,
   ⟨"GetConfluentSchema", "ConfluentSchemaReq", "ConfluentSchemaResp", .Unary⟩,
   ⟨"GetSourceMetadata", "CreateSourceReq", "SourceMetadataResp", .Unary⟩,
   ⟨"TestSchema", "CreateSourceReq", "TestSchemaResp", .Unary⟩,
   ⟨"TestSource", "CreateSourceReq", "TestSourceMessage", .ServerStreaming⟩,
   ⟨"CreatePipeline", "CreatePipelineReq", "CreatePipelineResp", .Unary⟩,
   ⟨"GraphForPipeline", "PipelineGraphReq", "PipelineGraphResp", .Unary⟩,
   ⟨"GetPipeline", "GetPipelineReq", "PipelineDef", .Unary⟩,
   ⟨"CreateJob", "CreateJobReq", "CreateJobResp", .Unary⟩,
   ⟨"DeleteJob", "DeleteJobReq", "DeleteJobResp", .Unary⟩,
   ⟨"StartPipeline", "CreatePipelineReq", "CreateJobResp", .Unary⟩,
   ⟨"PreviewPipeline", "CreatePipelineReq", "CreateJobResp", .Unary⟩,
   ⟨"GetJobs", "GetJobsReq", "GetJobsResp", .Unary⟩,
   ⟨"GetJobDetails", "JobDetailsReq", "JobDetailsResp", .Unary⟩,
   ⟨"GetCheckpoints", "JobCheckpointsReq", "JobCheckpointsResp", .Unary⟩,
   ⟨"GetCheckpointDetail", "CheckpointDetailsReq", "CheckpointDetailsResp", .Unary⟩,
   ⟨"GetOperatorErrors", "OperatorErrorsReq", "OperatorErrorsRes", .Unary⟩,
   ⟨"GetJobMetrics", "JobMetricsReq", "JobMetricsResp", .Unary⟩,
   ⟨"UpdateJob", "UpdateJobReq", "UpdateJobResp", .Unary⟩,
   ⟨"SubscribeToOutput", "GrpcOutputSubscription", "OutputData", .ServerStreaming⟩]

/-! ## Schema draft data model -/

/-- A field type tree as the wizard builds it; the source only ever
constructs the primitive case, as the object with a `primitive` tag. -/
inductive TypeSpec where
  | primitive (name : String)
  deriving DecidableEq, Repr

/-- The `fieldType` wrapper object: it holds the type tree under a `type`
key. -/
structure FieldType where
  type : TypeSpec
  deriving DecidableEq, Repr

/-- A schema field: `fieldName`, `fieldType` and `nullable`, as built by
`RawStringEditor.submit`. (The source calls this shape Field; that name is
taken by the ambient library.) -/
structure SchemaField where
  fieldName : String
  fieldType : FieldType
  nullable : Bool
  deriving DecidableEq, Repr

/-- The schema `definition` value: either a JSON-schema text, written as the
object with a `json_schema` key, or a raw-schema text, written as the object
with a `raw_schema` key. The draft stores an optional `Definition`, `none`
standing for the source's `null`. -/
inductive Definition where
  | json_schema (text : String)
  | raw_schema (text : String)
  deriving DecidableEq, Repr

/-- Options of the `json` schema format: `unstructured` is an optional key,
absent in the object `DefineSchema.onFormatChange` builds and present in the
objects `JsonEditor.onChange` builds; `confluentSchemaRegistry` is always
written. -/
structure JsonFormatOptions where
  unstructured : Option Bool
  confluentSchemaRegistry : Bool
  deriving DecidableEq, Repr

/-- The schema `format` tag: the `json` object with its options, or the
empty `raw_string` object. -/
inductive Format where
  | json (opts : JsonFormatOptions)
  | raw_string
  deriving DecidableEq, Repr

/-- The newline framing method's options: an optional `maxLineLength`. -/
structure NewlineFraming where
  maxLineLength : Option Nat
  deriving DecidableEq, Repr

/-- A framing method; the source only constructs the `newline` case (the
None choice stores no framing value at all). -/
inductive FramingMethod where
  | newline (opts : NewlineFraming)
  deriving DecidableEq, Repr

/-- A framing value as stored in the draft: an object with a `method` key. -/
structure Framing where
  method : FramingMethod
  deriving DecidableEq, Repr

/-- The draft's `schema` object: `format`, `framing`, `fields` and
`definition`, each optional where the source leaves it unset or null. -/
structure SchemaDraft where
  format : Option Format
  framing : Option Framing
  fields : List SchemaField
  definition : Option Definition
  deriving DecidableEq, Repr

/-- Modelled from the spec: `CreateConnectionState` is declared in
`CreateConnection.tsx`, which is not among the available files; the spec's
wizard draft holds a connector id, an optional connection profile id and the
schema object. The transitions in the available code spread the whole prior
state and replace only `schema`, so every further field they might carry is
preserved the same way these two are. -/
structure CreateConnectionState where
  connectorId : Option String
  connectionProfileId : Option String
  schema : SchemaDraft
  deriving DecidableEq, Repr

/-- Modelled from the spec: `ConnectionProfile.config` comes from
`lib/data_fetching`, not among the available files; per the spec its shape
is an opaque map whose sole capability signal is the presence of a
`schemaRegistry` entry, so the model keeps exactly that entry, `none`
standing for absent or null. -/
structure ProfileConfig where
  schemaRegistry : Option Unit
  deriving DecidableEq, Repr

/-- Modelled from the spec: a `ConnectionProfile` (from `lib/data_fetching`,
not among the available files) carries an id and a config map; the available
code reads exactly `id` and `config.schemaRegistry`. -/
structure ConnectionProfile where
  id : String
  config : ProfileConfig
  deriving DecidableEq, Repr

/-- Modelled from the spec: a `Connector` (from `lib/data_fetching`, not
among the available files) names an integration; the available code reads
exactly its `id`. -/
structure Connector where
  id : String
  deriving DecidableEq, Repr

/-! ## Offered option sets -/

/-- A schema-type choice of `JsonEditor`: display name and value. -/
structure SchemaTypeOption where
  name : String
  value : String
  deriving DecidableEq, Repr

/-- `JsonEditor.schemaTypeOptions`: JSON Schema and Unstructured JSON
always; Confluent Schema Registry appended exactly when the connector id is
kafka, a connection profile id is set and found among the profiles, and that
profile's config has a non-null `schemaRegistry`. -/
def schemaTypeOptions (connector : Connector) (connectionProfiles : List ConnectionProfile)
    (state : CreateConnectionState) : List SchemaTypeOption :=
  let base : List SchemaTypeOption :=
    [⟨"JSON Schema", "json"⟩, ⟨"Unstructured JSON", "unstructured"⟩]
  let connectionProfile : Option ConnectionProfile :=
    match state.connectionProfileId with
    | none => none
    | some pid => connectionProfiles.find? fun c => c.id == pid
  match connectionProfile with
  | some p =>
      if connector.id == "kafka" && p.config.schemaRegistry.isSome then
        base ++ [⟨"Confluent Schema Registry", "confluent"⟩]
      else base
  | none => base

/-- A data-format choice of `DefineSchema`: display name, value and the
optional `disabled` flag (`none` where the source omits it). -/
structure DataFormatOption where
  name : String
  value : String
  disabled : Option Bool
  deriving DecidableEq, Repr

/-- `DefineSchema.formats`: JSON, Raw String, and the disabled Protobuf and
Avro placeholders. -/
def formats : List DataFormatOption :=
  [⟨"JSON", "json", none⟩,
   ⟨"Raw String", "raw_string", none⟩,
   ⟨"Protobuf (coming soon)", "protobuf", some true⟩,
   ⟨"Avro (coming soon)", "avro", some true⟩]

/-- The format options `DefineSchema` offers: when the connection-profile
lookup is still loading the component returns an empty fragment, so nothing
is offered; otherwise it offers `formats`. -/
def defineSchemaFormatOptions (connectionProfilesLoading : Bool) : List DataFormatOption :=
  if connectionProfilesLoading then [] else formats

/-- A framing choice of `DefineSchema.framingMethods`: display name and the
optional framing value stored on selection (the None choice stores no
value). -/
structure FramingOption where
  name : String
  value : Option Framing
  deriving DecidableEq, Repr

/-- `DefineSchema.framingMethods`: None with no value, and Newline with a
newline method whose `maxLineLength` is null. -/
def framingMethods : List FramingOption :=
  [⟨"None", none⟩,
   ⟨"Newline", some ⟨.newline ⟨none⟩⟩⟩]

/-! ## Draft transitions -/

/-- `JsonEditor.onChange`: on the selected schema-type value, rewrite the
draft's schema definition, fields and format; any other value leaves the
state untouched (the switch has no default case). -/
def jsonEditorOnChange (state : CreateConnectionState) (value : String) :
    CreateConnectionState :=
  if value == "json" then
    { state with schema :=
      { state.schema with
        definition := some (.json_schema "")
        fields := []
        format := some (.json ⟨some false, false⟩) } }
  else if value == "confluent" then
    { state with schema :=
      { state.schema with
        definition := none
        fields := []
        format := some (.json ⟨some false, true⟩) } }
  else if value == "unstructured" then
    { state with schema :=
      { state.schema with
        definition := some (.raw_schema "value")
        fields := []
        format := some (.json ⟨some true, false⟩) } }
  else state

/-- `RawStringEditor.submit`: set the definition to the raw schema text
value, the fields to the single nullable string field named value, and the
format to raw string. -/
def rawStringEditorSubmit (state : CreateConnectionState) : CreateConnectionState :=
  { state with schema :=
    { state.schema with
      definition := some (.raw_schema "value")
      fields := [⟨"value", ⟨.primitive "string"⟩, true⟩]
      format := some .raw_string } }

/-- `DefineSchema.onFormatChange`: value json sets the json format (with
only the `confluentSchemaRegistry` key, false) and empties the fields; any
other value sets the raw string format and empties the fields. The
definition is not written. -/
def onFormatChange (state : CreateConnectionState) (value : String) :
    CreateConnectionState :=
  if value == "json" then
    { state with schema :=
      { state.schema with
        format := some (.json ⟨none, false⟩)
        fields := [] } }
  else
    { state with schema :=
      { state.schema with
        format := some .raw_string
        fields := [] } }

/-- `DefineSchema.onFramingChange`: look the selected name up in
`framingMethods`, empty the fields and store the found option's framing
value. The source dereferences the lookup with a non-null assertion, so an
unknown name crashes at runtime; the embedding returns `none` there. -/
def onFramingChange (state : CreateConnectionState) (name : String) :
    Option CreateConnectionState :=
  match framingMethods.find? fun f => f.name == name with
  | none => none
  | some f =>
      some { state with schema :=
        { state.schema with
          fields := []
          framing := f.value } }

/-- A concrete empty draft, as the wizard opens: nothing selected yet. -/
def emptyState : CreateConnectionState :=
  { connectorId := none
    connectionProfileId := none
    schema := { format := none, framing := none, fields := [], definition := none } }

/-! ## Theorems -/

/-- C8: in the `ApiGrpc` catalog every operation name is unique, and an
operation has server-streaming invocation kind exactly when it is TestSource
or SubscribeToOutput; every other operation is unary. -/
theorem apiGrpc_unique_names_streaming_exactly_two :
    (ApiGrpcMethods.map fun m => m.name).Nodup ∧
      ∀ m ∈ ApiGrpcMethods,
        (m.kind = MethodKind.ServerStreaming ↔
          (m.name = "TestSource" ∨ m.name = "SubscribeToOutput")) ∧
        (m.kind ≠ MethodKind.ServerStreaming → m.kind = MethodKind.Unary) := by
  decide

/-- C9: while the connection-profile lookup is loading, `DefineSchema`
offers no format options at all, so no format transition (in particular not
the capability-gated Confluent one, reached through the JSON option's
editor) can be selected. -/
theorem defineSchema_loading_offers_nothing :
    defineSchemaFormatOptions true = [] := rfl

/-- C4: completing the RawString branch yields a schema with exactly the one
nullable primitive-string field named value, the raw-schema definition with
text value, and the raw string format. -/
theorem rawStringEditorSubmit_spec (state : CreateConnectionState) :
    (rawStringEditorSubmit state).schema.fields =
        [⟨"value", ⟨TypeSpec.primitive "string"⟩, true⟩] ∧
      (rawStringEditorSubmit state).schema.definition =
        some (Definition.raw_schema "value") ∧
      (rawStringEditorSubmit state).schema.format = some Format.raw_string :=
  ⟨rfl, rfl, rfl⟩

/-- C6: selecting the JSON Schema schema type yields the json format with
unstructured false and confluentSchemaRegistry false, the empty JSON-schema
text as definition, and empty fields. -/
theorem jsonEditorOnChange_json_spec (state : CreateConnectionState) :
    (jsonEditorOnChange state "json").schema.format =
        some (Format.json ⟨some false, false⟩) ∧
      (jsonEditorOnChange state "json").schema.definition =
        some (Definition.json_schema "") ∧
      (jsonEditorOnChange state "json").schema.fields = [] :=
  ⟨rfl, rfl, rfl⟩

/-- C7: selecting the Confluent Schema Registry schema type yields the json
format with confluentSchemaRegistry true, a null definition, and empty
fields. -/
theorem jsonEditorOnChange_confluent_spec (state : CreateConnectionState) :
    (jsonEditorOnChange state "confluent").schema.format =
        some (Format.json ⟨some false, true⟩) ∧
      (jsonEditorOnChange state "confluent").schema.definition = none ∧
      (jsonEditorOnChange state "confluent").schema.fields = [] :=
  ⟨rfl, rfl, rfl⟩

/-- C5: a successful framing change empties the fields, whatever they were,
and applying the same framing change again returns the same draft. -/
theorem onFramingChange_resets_fields_idem (s s' : CreateConnectionState)
    (name : String) (h : onFramingChange s name = some s') :
    s'.schema.fields = [] ∧ onFramingChange s' name = some s' := by
  unfold onFramingChange at h ⊢
  cases hf : framingMethods.find? fun f => f.name == name with
  | none => rw [hf] at h; exact absurd h (by simp)
  | some f =>
      rw [hf] at h
      injection h with h
      subst h
      exact ⟨rfl, rfl⟩

/-- C5 witness: the framing change at the empty draft with the None choice
succeeds, leaves empty fields and is idempotent. -/
theorem onFramingChange_resets_fields_idem_witness :
    emptyState.schema.fields = [] ∧
      onFramingChange emptyState "None" = some emptyState :=
  onFramingChange_resets_fields_idem emptyState emptyState "None" (by decide)

/-- C10: each transition changes only the draft parts it names: a framing
change keeps the schema format, the schema definition and the non-schema
fields; the schema-type change keeps the schema framing and the non-schema
fields; the top-level format change keeps the schema framing, the schema
definition and the non-schema fields; the raw-string submit keeps the schema
framing and the non-schema fields. -/
theorem transitions_frame_conditions (s : CreateConnectionState)
    (framingName formatValue schemaTypeValue : String)
    (s' : CreateConnectionState)
    (h : onFramingChange s framingName = some s') :
    (s'.schema.format = s.schema.format ∧
      s'.schema.definition = s.schema.definition ∧
      s'.connectorId = s.connectorId ∧
      s'.connectionProfileId = s.connectionProfileId) ∧
    ((jsonEditorOnChange s schemaTypeValue).schema.framing = s.schema.framing ∧
      (jsonEditorOnChange s schemaTypeValue).connectorId = s.connectorId ∧
      (jsonEditorOnChange s schemaTypeValue).connectionProfileId = s.connectionProfileId) ∧
    ((onFormatChange s formatValue).schema.framing = s.schema.framing ∧
      (onFormatChange s formatValue).schema.definition = s.schema.definition ∧
      (onFormatChange s formatValue).connectorId = s.connectorId ∧
      (onFormatChange s formatValue).connectionProfileId = s.connectionProfileId) ∧
    ((rawStringEditorSubmit s).schema.framing = s.schema.framing ∧
      (rawStringEditorSubmit s).connectorId = s.connectorId ∧
      (rawStringEditorSubmit s).connectionProfileId = s.connectionProfileId) := by
  refine ⟨?_, ?_, ?_, ⟨rfl, rfl, rfl⟩⟩
  · unfold onFramingChange at h
    cases hf : framingMethods.find? fun f => f.name == framingName with
    | none => rw [hf] at h; exact absurd h (by simp)
    | some f =>
        rw [hf] at h
        injection h with h
        subst h
        exact ⟨rfl, rfl, rfl, rfl⟩
  · unfold jsonEditorOnChange
    split
    · exact ⟨rfl, rfl, rfl⟩
    · split
      · exact ⟨rfl, rfl, rfl⟩
      · split
        · exact ⟨rfl, rfl, rfl⟩
        · exact ⟨rfl, rfl, rfl⟩
  · unfold onFormatChange
    split
    · exact ⟨rfl, rfl, rfl, rfl⟩
    · exact ⟨rfl, rfl, rfl, rfl⟩

/-- C10 witness: the frame conditions evaluated on the empty draft, with the
None framing choice, the json top-level format and the confluent schema
type. -/
theorem transitions_frame_conditions_witness :
    (emptyState.schema.format = emptyState.schema.format ∧
      emptyState.schema.definition = emptyState.schema.definition ∧
      emptyState.connectorId = emptyState.connectorId ∧
      emptyState.connectionProfileId = emptyState.connectionProfileId) ∧
    ((jsonEditorOnChange emptyState "confluent").schema.framing = emptyState.schema.framing ∧
      (jsonEditorOnChange emptyState "confluent").connectorId = emptyState.connectorId ∧
      (jsonEditorOnChange emptyState "confluent").connectionProfileId =
        emptyState.connectionProfileId) ∧
    ((onFormatChange emptyState "json").schema.framing = emptyState.schema.framing ∧
      (onFormatChange emptyState "json").schema.definition = emptyState.schema.definition ∧
      (onFormatChange emptyState "json").connectorId = emptyState.connectorId ∧
      (onFormatChange emptyState "json").connectionProfileId =
        emptyState.connectionProfileId) ∧
    ((rawStringEditorSubmit emptyState).schema.framing = emptyState.schema.framing ∧
      (rawStringEditorSubmit emptyState).connectorId = emptyState.connectorId ∧
      (rawStringEditorSubmit emptyState).connectionProfileId =
        emptyState.connectionProfileId) :=
  transitions_frame_conditions emptyState "None" "json" "confluent" emptyState (by decide)

/-- C1 counterexample: starting from the empty draft, select the Confluent
schema type (definition becomes null), then select the json format at the
top level. The fields are empty, but the definition is still null — the
stale value from the Confluent branch — and not the canonical empty
JSON-schema text the claim requires after a JSON-family selection. -/
theorem formatChange_keeps_stale_definition_cex :
    (onFormatChange (jsonEditorOnChange emptyState "confluent") "json").schema.fields = [] ∧
    (onFormatChange (jsonEditorOnChange emptyState "confluent") "json").schema.definition =
      none ∧
    (onFormatChange (jsonEditorOnChange emptyState "confluent") "json").schema.definition ≠
      some (Definition.json_schema "") := by
  decide

/-- C1 amended: every schema-type selection in the JSON editor empties the
fields and sets the canonical definition for the selected type (empty
JSON-schema text for json, raw-schema text value for unstructured, null for
confluent); the top-level format selections also empty the fields but leave
the definition unchanged, so a stale definition from a previously explored
branch survives a top-level format change. -/
theorem selections_reset_fields_and_definition (s : CreateConnectionState)
    (formatValue : String) :
    ((jsonEditorOnChange s "json").schema.fields = [] ∧
      (jsonEditorOnChange s "json").schema.definition =
        some (Definition.json_schema "")) ∧
    ((jsonEditorOnChange s "unstructured").schema.fields = [] ∧
      (jsonEditorOnChange s "unstructured").schema.definition =
        some (Definition.raw_schema "value")) ∧
    ((jsonEditorOnChange s "confluent").schema.fields = [] ∧
      (jsonEditorOnChange s "confluent").schema.definition = none) ∧
    ((onFormatChange s formatValue).schema.fields = [] ∧
      (onFormatChange s formatValue).schema.definition = s.schema.definition) := by
  refine ⟨⟨rfl, rfl⟩, ⟨rfl, rfl⟩, ⟨rfl, rfl⟩, ?_⟩
  unfold onFormatChange
  split
  · exact ⟨rfl, rfl⟩
  · exact ⟨rfl, rfl⟩

/-- C3 counterexample: the only Newline framing choice offered by
`DefineSchema.framingMethods` carries a null maxLineLength, so selecting
Newline and then the JSON Schema type leaves the draft's framing at newline
with null maxLineLength, not 128 as the claim states. -/
theorem newline_then_jsonSchema_cex :
    ((onFramingChange emptyState "Newline").map fun s1 =>
        (jsonEditorOnChange s1 "json").schema.framing) =
      some (some ⟨FramingMethod.newline ⟨none⟩⟩) ∧
    ((onFramingChange emptyState "Newline").map fun s1 =>
        (jsonEditorOnChange s1 "json").schema.framing) ≠
      some (some ⟨FramingMethod.newline ⟨some 128⟩⟩) := by
  decide

/-- C3 amended: from any draft, selecting the offered Newline framing choice
(whose maxLineLength is null) and then the JSON Schema type yields the
schema with newline framing of null maxLineLength, the json format with
unstructured false and confluentSchemaRegistry false, empty fields, and the
empty JSON-schema text as definition. -/
theorem newline_then_jsonSchema_draft (s : CreateConnectionState) :
    ((onFramingChange s "Newline").map fun s1 =>
        (jsonEditorOnChange s1 "json").schema) =
      some { format := some (Format.json ⟨some false, false⟩)
             framing := some ⟨FramingMethod.newline ⟨none⟩⟩
             fields := []
             definition := some (Definition.json_schema "") } := rfl

/-- C2: the Confluent Schema Registry choice is among the offered schema
types exactly when the connector id is kafka, a connection profile id is set
and found among the profiles, and the found profile's config has a non-null
schemaRegistry; whenever it is absent, the offered schema types are exactly
JSON Schema and Unstructured JSON. -/
theorem schemaTypeOptions_confluent_gating (connector : Connector)
    (connectionProfiles : List ConnectionProfile) (state : CreateConnectionState) :
    ((⟨"Confluent Schema Registry", "confluent"⟩ : SchemaTypeOption) ∈
        schemaTypeOptions connector connectionProfiles state ↔
      connector.id = "kafka" ∧
        ∃ pid p, state.connectionProfileId = some pid ∧
          connectionProfiles.find? (fun c => c.id == pid) = some p ∧
          p.config.schemaRegistry ≠ none) ∧
    ((⟨"Confluent Schema Registry", "confluent"⟩ : SchemaTypeOption) ∉
        schemaTypeOptions connector connectionProfiles state →
      schemaTypeOptions connector connectionProfiles state =
        [⟨"JSON Schema", "json"⟩, ⟨"Unstructured JSON", "unstructured"⟩]) := by
  cases hpid : state.connectionProfileId with
  | none =>
      have hopt : schemaTypeOptions connector connectionProfiles state =
          [⟨"JSON Schema", "json"⟩, ⟨"Unstructured JSON", "unstructured"⟩] := by
        simp [schemaTypeOptions, hpid]
      rw [hopt]
      refine ⟨⟨fun hmem => absurd hmem (by decide), ?_⟩, fun _ => rfl⟩
      rintro ⟨-, pid, p, hpid2, -, -⟩
      cases hpid2
  | some pid =>
      cases hp : connectionProfiles.find? fun c => c.id == pid with
      | none =>
          have hopt : schemaTypeOptions connector connectionProfiles state =
              [⟨"JSON Schema", "json"⟩, ⟨"Unstructured JSON", "unstructured"⟩] := by
            simp [schemaTypeOptions, hpid, hp]
          rw [hopt]
          refine ⟨⟨fun hmem => absurd hmem (by decide), ?_⟩, fun _ => rfl⟩
          rintro ⟨-, pid2, p2, hpid2, hp2, -⟩
          injection hpid2 with hpid2
          subst hpid2
          rw [hp] at hp2
          cases hp2
      | some p =>
          by_cases hk : connector.id = "kafka" ∧ p.config.schemaRegistry ≠ none
          · have hopt : schemaTypeOptions connector connectionProfiles state =
                [⟨"JSON Schema", "json"⟩, ⟨"Unstructured JSON", "unstructured"⟩,
                 ⟨"Confluent Schema Registry", "confluent"⟩] := by
              simp [schemaTypeOptions, hpid, hp, hk.1, Option.isSome_iff_ne_none, hk.2]
            rw [hopt]
            refine ⟨⟨fun _ => ⟨hk.1, pid, p, rfl, hp, hk.2⟩, fun _ => by decide⟩, ?_⟩
            intro hmem
            exact absurd (by decide) hmem
          · have hopt : schemaTypeOptions connector connectionProfiles state =
                [⟨"JSON Schema", "json"⟩, ⟨"Unstructured JSON", "unstructured"⟩] := by
              rcases not_and_or.mp hk with h1 | h2
              · simp [schemaTypeOptions, hpid, hp, h1]
              · simp [schemaTypeOptions, hpid, hp, not_not.mp h2]
            rw [hopt]
            refine ⟨⟨fun hmem => absurd hmem (by decide), ?_⟩, fun _ => rfl⟩
            rintro ⟨hka, pid2, p2, hpid2, hp2, hreg⟩
            injection hpid2 with hpid2
            subst hpid2
            rw [hp] at hp2
            injection hp2 with hp2
            subst hp2
            exact absurd ⟨hka, hreg⟩ hk
